import Mathlib

/-!
Verification development for the bay-study-backend attendance service.

The embedding works over Unix timestamps in seconds as `Int`.  The deployed
system uses a single fixed civil timezone, KST (UTC+9, offset 32400 seconds,
no daylight saving), and the server process runs with its local timezone set
to UTC; JavaScript `Date` field arithmetic (`getUTCFullYear`, `getUTCMonth`,
`getUTCDate`, `setUTCDate`, `Date.UTC`) over the proleptic Gregorian
calendar is embedded as floor-division day arithmetic, which agrees with it
at every instant.  Civil calendar dates (`YYYY-MM-DD` strings in the code)
are represented by their day number (days since the epoch); the string form
and the day number are in bijection, and the code only ever compares the
strings for equality or parses them back to a midnight timestamp.
-/

namespace BayStudy

/-- Day number (days since 1970-01-01) of the KST civil date containing the
UTC instant `t`; that is, `new Date((t + 9*3600)*1000)` read through its
UTC date fields. -/
def kstDayOf (t : Int) : Int := Int.fdiv (t + 32400) 86400

/-- UTC timestamp of KST midnight of the KST civil day containing `t`.
Embeds github.service.ts lines 157-167: take the UTC date fields of the
commit shifted by 9h, build `Date.UTC(y, m, d, 15:00)` and subtract one day
(KST midnight of day `D` is 15:00 UTC of day `D - 1`). -/
def kstMidnightOf (t : Int) : Int := kstDayOf t * 86400 - 32400

/-- UTC timestamp of KST midnight of civil day number `d`. -/
def kstMidnightOfDay (d : Int) : Int := d * 86400 - 32400

/-- Embedding of `GitHubService.isCommitWithinStudyTime` (github.service.ts
lines 151-187).  Here `c` is the commit Unix timestamp, `s` and `e` the
study start and end offsets in seconds from KST midnight. -/
def isCommitWithinStudyTime (c s e : Int) : Bool :=
  let midnightTimestamp := kstMidnightOf c
  let actualStartTime := midnightTimestamp + s
  let actualEndTime := midnightTimestamp + e
  if 86400 < e ∨ e < s then
    -- overnight branch
    let realEndTime := if 86400 < e then e - 86400 else e
    let nextDayEndTime := midnightTimestamp + 86400 + realEndTime
    decide (actualStartTime ≤ c) || decide (c ≤ nextDayEndTime)
  else
    decide (actualStartTime ≤ c) && decide (c ≤ actualEndTime)

/-- Embedding of `GitHubService.calculateStudyDate` (github.service.ts lines
197-242).  Returns the UTC timestamp of the KST midnight of the owning
study date. -/
def calculateStudyDate (c s e : Int) : Int :=
  let kstDay := kstDayOf c
  if 86400 ≤ e then
    -- overnight study: branch on the KST hour of day of the commit
    let commitHourKST := Int.fdiv ((c + 32400) % 86400) 3600
    let endHour := Int.fdiv (e % 86400) 3600
    let targetDay := if commitHourKST ≤ endHour then kstDay - 1 else kstDay
    kstMidnightOfDay targetDay
  else
    kstMidnightOfDay kstDay

/-- Day number written into the `date` column by `processCommit`
(github.service.ts lines 101-102): the ISO date of the study date shifted
by 9h. -/
def studyDayOf (c s e : Int) : Int := Int.fdiv (calculateStudyDate c s e + 32400) 86400

/-- Result of the window resolver of spec section 4.1. -/
inductive ResolveResult where
  | accepted (calendarDay windowStartUtc windowEndUtc : Int)
  | rejected
deriving DecidableEq

/-- Whether candidate calendar day `d` qualifies for commit `c` under the
spec section 4.1 window from `midnightUtc d + s` to `midnightUtc d + e`,
boundaries inclusive. -/
def specQualifies (c s e d : Int) : Bool :=
  decide (kstMidnightOfDay d + s ≤ c) && decide (c ≤ kstMidnightOfDay d + e)

/-- Absolute-timestamp window resolver of spec section 4.1 (the refinement
target; this definition follows the words of the spec, not the code):
candidates are the local civil date of the commit and the day before;
accept the unique candidate whose absolute window contains the commit,
otherwise reject. -/
def specResolve (c s e : Int) : ResolveResult :=
  let d := kstDayOf c
  match specQualifies c s e d, specQualifies c s e (d - 1) with
  | true, false => .accepted d (kstMidnightOfDay d + s) (kstMidnightOfDay d + e)
  | false, true => .accepted (d - 1) (kstMidnightOfDay (d - 1) + s) (kstMidnightOfDay (d - 1) + e)
  | _, _ => .rejected

/-- One row of the `commit_records` table (entity imported by the GitHub
module); `date` is the civil-day number standing for the `YYYY-MM-DD`
string column. -/
structure CommitRow where
  study_id : Nat
  user_id : Nat
  date : Int
  commit_timestamp : Int
  commit_id : String
  commit_message : String
  wallet_address : String
deriving DecidableEq

/-- Commit-record store, in insertion order (`save` appends). -/
abbrev CommitDB := List CommitRow

/-- Embedding of `commitRecordRepository.findOne` keyed on study, user and
date (database.service.ts lines 1000-1006). -/
def findCommitRecord (db : CommitDB) (studyId userId : Nat) (date : Int) : Option CommitRow :=
  db.find? fun r => r.study_id == studyId && r.user_id == userId && r.date == date

/-- Embedding of `commitRecordRepository.count` keyed on study and date
(database.service.ts lines 1014-1019). -/
def countStudyDateRecords (db : CommitDB) (studyId : Nat) (date : Int) : Nat :=
  (db.filter fun r => r.study_id == studyId && r.date == date).length

/-- Return value of `DatabaseService.recordCommit`. -/
structure RecordCommitResult where
  isFirstCommit : Bool
  isFirstStudyCommitToday : Bool
deriving DecidableEq

/-- Argument record of `DatabaseService.recordCommit`. -/
structure RecordCommitData where
  studyId : Nat
  userId : Nat
  date : Int
  commitTimestamp : Int
  commitId : String
  commitMessage : String
  walletAddress : String

/-- Row built by `commitRecordRepository.create` from the data
(database.service.ts lines 1024-1032). -/
def mkCommitRow (d : RecordCommitData) : CommitRow :=
  ⟨d.studyId, d.userId, d.date, d.commitTimestamp, d.commitId, d.commitMessage, d.walletAddress⟩

/-- Embedding of `DatabaseService.recordCommit` (database.service.ts lines
988-1038): return `isFirstCommit = false` if a record with the same
(study, user, date) key exists; otherwise compute whether any record for
(study, date) exists across all participants, insert, and return. -/
def recordCommit (db : CommitDB) (d : RecordCommitData) : RecordCommitResult × CommitDB :=
  match findCommitRecord db d.studyId d.userId d.date with
  | some _ => (⟨false, false⟩, db)
  | none =>
    let isFirstStudyCommitToday := countStudyDateRecords db d.studyId d.date == 0
    (⟨true, isFirstStudyCommitToday⟩, db ++ [mkCommitRow d])

/-- Outcome of one external-ledger (blockchain) call, as observed by the
orchestrator: success, or a raised error carrying its message. -/
inductive LedgerResult where
  | ok
  | err (msg : String)
deriving DecidableEq

/-- External-ledger call issued by `processCommit`, with its arguments. -/
inductive LedgerCall where
  | startTodayStudy (proxy : String) (studyDate : Int)
  | trackCommit (proxy wallet : String) (commitTimestamp studyDate : Int)
deriving DecidableEq

/-- Test whether `needle` occurs as a contiguous run inside the character
list. -/
def listContainsSub (needle : List Char) : List Char → Bool
  | [] => needle.isEmpty
  | c :: t => needle.isPrefixOf (c :: t) || listContainsSub needle t

/-- Embedding of the JavaScript string `includes` method. -/
def strIncludes (hay needle : String) : Bool :=
  listContainsSub needle.toList hay.toList

/-- Error-message fragment matched by `processCommit`
(github.service.ts line 123). -/
def alreadyExistsMsg : String := "Study for this day already exists"

/-- External-ledger phase of `GitHubService.processCommit`
(github.service.ts lines 115-137), given the `recordCommit` result and the
responses the ledger would give to `startTodayStudy` and `trackCommit`.
Returns the calls actually issued, in order, and the error re-raised to the
caller (if any).  A `startTodayStudy` error whose message contains
`alreadyExistsMsg` is swallowed and processing continues with
`trackCommit`; any other `startTodayStudy` error is re-raised and stops the
iteration before `trackCommit`. -/
def ledgerPhase (r : RecordCommitResult) (proxy wallet : String) (commitTs studyDate : Int)
    (startResp trackResp : LedgerResult) : List LedgerCall × Option String :=
  if r.isFirstCommit then
    if r.isFirstStudyCommitToday then
      match startResp with
      | .ok =>
        match trackResp with
        | .ok => ([.startTodayStudy proxy studyDate, .trackCommit proxy wallet commitTs studyDate], none)
        | .err m => ([.startTodayStudy proxy studyDate, .trackCommit proxy wallet commitTs studyDate], some m)
      | .err m =>
        if strIncludes m alreadyExistsMsg then
          match trackResp with
          | .ok => ([.startTodayStudy proxy studyDate, .trackCommit proxy wallet commitTs studyDate], none)
          | .err m2 => ([.startTodayStudy proxy studyDate, .trackCommit proxy wallet commitTs studyDate], some m2)
        else
          ([.startTodayStudy proxy studyDate], some m)
    else
      match trackResp with
      | .ok => ([.trackCommit proxy wallet commitTs studyDate], none)
      | .err m => ([.trackCommit proxy wallet commitTs studyDate], some m)
  else ([], none)

/-- Study window configuration row (columns of the `studies` table used by
`processCommit` and the scheduler). -/
structure StudyCfg where
  id : Nat
  proxy_address : String
  study_name : String
  study_start_time : Int
  study_end_time : Int
deriving DecidableEq

/-- Result of processing one commit against one study. -/
structure StepResult where
  db : CommitDB
  calls : List LedgerCall
  thrown : Option String
  recorded : Option RecordCommitResult
deriving DecidableEq

/-- Per-study body of `GitHubService.processCommit` (github.service.ts lines
67-137), after the participation and wallet checks: gate on
`isCommitWithinStudyTime`; compute the study date with `calculateStudyDate`
and the `date` string from the study date shifted by 9h; call
`recordCommit`; then run the ledger phase.  `recorded = none` means the
commit was discarded as outside the study window. -/
def processCommitForStudy (db : CommitDB) (study : StudyCfg) (userId : Nat) (wallet : String)
    (commitTs : Int) (commitId commitMessage : String)
    (startResp trackResp : LedgerResult) : StepResult :=
  if isCommitWithinStudyTime commitTs study.study_start_time study.study_end_time then
    let studyDate := calculateStudyDate commitTs study.study_start_time study.study_end_time
    let dateDay := Int.fdiv (studyDate + 32400) 86400
    let res := recordCommit db ⟨study.id, userId, dateDay, commitTs, commitId, commitMessage, wallet⟩
    let ledger := ledgerPhase res.1 study.proxy_address wallet commitTs studyDate startResp trackResp
    ⟨res.2, ledger.1, ledger.2, some res.1⟩
  else
    ⟨db, [], none, none⟩

/-- Commit-record row joined with its study, as returned by the query in
`getStudiesToClose` (database.service.ts lines 890-894). -/
structure SchedRecord where
  study_id : Nat
  date : Int
  study : StudyCfg
deriving DecidableEq

/-- Keep the first record for each (study_id, date) key, dropping later
duplicates (database.service.ts lines 897-901). -/
def dedupeRecords (l : List SchedRecord) : List SchedRecord :=
  l.foldl
    (fun acc r =>
      if acc.any (fun x => x.study_id == r.study_id && x.date == r.date) then acc
      else acc ++ [r])
    []

/-- Element of the list returned by `getStudiesToClose`. -/
structure StudyToClose where
  proxyAddress : String
  studyName : String
  studyDate : Int
  studyEndTime : Int
deriving DecidableEq

/-- Per-record window end computed by `getStudiesToClose`
(database.service.ts lines 927-940); `date` is the civil-day number of the
record, whose parse (date string with time 00:00:00, at the UTC local zone
of the server) is `date * 86400`. -/
def actualEndTimeOf (date e : Int) : Int :=
  if 86400 ≤ e then (date * 86400 + 86400) + e % 86400
  else date * 86400 + e

/-- Embedding of `DatabaseService.getStudiesToClose` (database.service.ts
lines 870-957), run at UTC time `now` over the commit-record store: shift
`now` by +9h, keep records dated today or yesterday (KST), dedupe by
(study, date), and for each compare the shifted clock against
`actualEndTimeOf` with a strict inequality. -/
def getStudiesToClose (now : Int) (records : List SchedRecord) : List StudyToClose :=
  let nowKST := now + 32400
  let today := kstDayOf now
  let yesterday := today - 1
  let commitRecords := records.filter fun r => r.date == today || r.date == yesterday
  (dedupeRecords commitRecords).filterMap fun r =>
    if actualEndTimeOf r.date r.study.study_end_time < nowKST then
      some ⟨r.study.proxy_address, r.study.study_name, r.date * 86400, r.study.study_end_time⟩
    else none

/-- Embedding of the `StudySessionStatus` enum of the study-sessions entity
(src/src/entities/balance.entity.ts, third bundled segment). -/
inductive StudySessionStatus where
  | active
  | closed
  | failed
deriving DecidableEq

/-- Embedding of the `StudySession` entity, table `study_sessions`
(src/src/entities/balance.entity.ts, third bundled segment): unique key
(study_id, study_date), lifecycle `status`, nullable `started_at`,
`closed_at` and `blockchain_tx_hash`, and the stored KST-midnight UTC
timestamp `study_midnight_utc`.  `study_date` is the civil-day number
standing for the `YYYY-MM-DD` string column, as everywhere in this file;
the surrogate `id`, the `created_at` metadata column and the relation
fields carry no session state and are omitted. -/
structure StudySession where
  study_id : Nat
  study_date : Int
  status : StudySessionStatus
  started_at : Option Int
  closed_at : Option Int
  blockchain_tx_hash : Option String
  study_midnight_utc : Int
deriving DecidableEq

/-- Modelled from the spec: `DatabaseService.markStudySessionClosed` is
called by `SchedulerService.handleStudyClosures` (src/unnamed/part_007 line
42) with the proxy address and the parsed midnight timestamp, but the
function itself is not present under src/ — spec section 4.5 step 3: on
ledger success, transition the session to CLOSED, set `closed_at` to the
pass time and store the ledger transaction reference.  The session row is
resolved through the (study_id, study_date) unique key of the entity: the
study by its proxy address in the study store, the date from the midnight
timestamp the scheduler passes. -/
def markStudySessionClosed (studies : List StudyCfg) (sessions : List StudySession)
    (proxy : String) (studyDate now : Int) (txHash : String) : List StudySession :=
  sessions.map fun s =>
    if (studies.any fun sc => sc.proxy_address == proxy && sc.id == s.study_id) &&
        s.study_date * 86400 == studyDate then
      { s with status := .closed, closed_at := some now, blockchain_tx_hash := some txHash }
    else s

/-- Embedding of `SchedulerService.handleStudyClosures` (src/unnamed/part_007
lines 19-55), run at UTC time `now`: fetch `getStudiesToClose`, and for
each entry call the `closeStudy` ledger operation; on success mark the
session closed, on failure log and continue with the remaining entries.
`closeOk` gives the ledger response per (proxy, studyDate) and `txOf` the
transaction reference of a successful close call; the second component
lists the `closeStudy` calls issued, in order. -/
def handleStudyClosures (now : Int) (records : List SchedRecord)
    (studies : List StudyCfg) (sessions : List StudySession)
    (closeOk : String → Int → Bool) (txOf : String → Int → String) :
    List StudySession × List (String × Int) :=
  (getStudiesToClose now records).foldl
    (fun acc s =>
      let calls := acc.2 ++ [(s.proxyAddress, s.studyDate)]
      if closeOk s.proxyAddress s.studyDate then
        (markStudySessionClosed studies acc.1 s.proxyAddress s.studyDate now
          (txOf s.proxyAddress s.studyDate), calls)
      else (acc.1, calls))
    (sessions, [])

/-- Expected signature string of `GitHubService.verifyWebhookSignature`
(github.service.ts line 256); `hmacHex secret payload` stands for the hex
HMAC-SHA256 digest of the payload under the secret. -/
def expectedSignature (hmacHex : String → String → String) (secret payload : String) : String :=
  "sha256=" ++ hmacHex secret payload

/-- Error message thrown by the Node `crypto.timingSafeEqual` primitive on
buffers of different byte lengths. -/
def lengthMismatchMsg : String := "Input buffers must have the same byte length"

/-- Model of `crypto.timingSafeEqual` on the UTF-8 buffers of two strings:
throws when the byte lengths differ, otherwise compares the bytes (UTF-8
encoding is injective, so byte equality is string equality). -/
def timingSafeEqualStr (a b : String) : Except String Bool :=
  if a.utf8ByteSize = b.utf8ByteSize then .ok (a == b)
  else .error lengthMismatchMsg

/-- Embedding of `GitHubService.verifyWebhookSignature` (github.service.ts
lines 247-267): `false` when no webhook secret is configured; otherwise
compare the supplied signature against `expectedSignature` with
`crypto.timingSafeEqual`, the surrounding try/catch turning any thrown
error (in particular the length-mismatch throw) into `false`. -/
def verifyWebhookSignature (hmacHex : String → String → String) (secretCfg : Option String)
    (payload signature : String) : Bool :=
  match secretCfg with
  | none => false
  | some secret =>
    match timingSafeEqualStr signature (expectedSignature hmacHex secret payload) with
    | .ok b => b
    | .error _ => false

/-- Concrete strings used by the witness instantiations below. -/
def pxA : String := "0xStudyProxy"

/-- Concrete study name used by the witness instantiations below. -/
def nmA : String := "algorithm study"

/-- Concrete wallet address used by the witness instantiations below. -/
def wA : String := "0xWallet"

/-- Concrete commit id used by the witness instantiations below. -/
def cidA : String := "deadbeef"

/-- Concrete commit message used by the witness instantiations below. -/
def msgA : String := "fix bug"

/-- Concrete non-idempotent ledger error message used by the witness
instantiations below. -/
def errBoom : String := "ledger unavailable"

/-- Concrete close-transaction hash used by the witness instantiations
below. -/
def txA : String := "0xclosetxhash"

/-- Day arithmetic helper: an instant `r` seconds after KST midnight of day
`d` lies on KST civil day `d`. -/
theorem kstDayOf_add (d r : Int) (h0 : 0 ≤ r) (h1 : r < 86400) :
    kstDayOf (d * 86400 - 32400 + r) = d := by
  unfold kstDayOf
  rw [show d * 86400 - 32400 + r + 32400 = d * 86400 + r by ring]
  rw [Int.fdiv_eq_ediv _ (by norm_num)]
  omega

/-- Day arithmetic helper: the KST time of day of an instant `r` seconds
after KST midnight of day `d` is `r`. -/
theorem kstTimeOfDay_add (d r : Int) (h0 : 0 ≤ r) (h1 : r < 86400) :
    (d * 86400 - 32400 + r + 32400) % 86400 = r := by
  omega

/-- Characterization of `getStudiesToClose` on a single-record store: the
record is selected iff its date is the current or previous KST day of the
pass and the pass clock (shifted by 9h) is strictly past
`actualEndTimeOf`. -/
theorem getStudiesToClose_singleton (now : Int) (r : SchedRecord) :
    getStudiesToClose now [r] =
      if (r.date = kstDayOf now ∨ r.date = kstDayOf now - 1) ∧
          actualEndTimeOf r.date r.study.study_end_time < now + 32400 then
        [⟨r.study.proxy_address, r.study.study_name, r.date * 86400, r.study.study_end_time⟩]
      else [] := by
  by_cases hd : r.date = kstDayOf now ∨ r.date = kstDayOf now - 1
  · have hb : (r.date == kstDayOf now || r.date == kstDayOf now - 1) = true := by
      rcases hd with h | h <;> simp [h]
    by_cases he : actualEndTimeOf r.date r.study.study_end_time < now + 32400
    · simp [getStudiesToClose, dedupeRecords, hb, hd, he]
    · simp [getStudiesToClose, dedupeRecords, hb, hd, he]
  · have hb : (r.date == kstDayOf now || r.date == kstDayOf now - 1) = false := by
      simp only [not_or] at hd
      simp [hd.1, hd.2]
    simp [getStudiesToClose, dedupeRecords, hb, hd]

/-- Helper for the ledger phase: a `startTodayStudy` error whose message
contains `alreadyExistsMsg` leads to exactly the behaviour of a successful
`startTodayStudy` call. -/
theorem ledgerPhase_swallow_already_started (r : RecordCommitResult) (proxy wallet : String)
    (commitTs studyDate : Int) (m : String) (tR : LedgerResult)
    (h : strIncludes m alreadyExistsMsg = true) :
    ledgerPhase r proxy wallet commitTs studyDate (.err m) tR =
      ledgerPhase r proxy wallet commitTs studyDate .ok tR := by
  obtain ⟨b1, b2⟩ := r
  cases b1 <;> cases b2 <;> cases tR <;> simp [ledgerPhase, h]

/-- C1: the claim states that a commit is accepted iff one of the two
candidate absolute windows contains it, for overnight windows as well.
The code violates this: with the overnight window 22:00 to 26:00
(offsets 79200 and 93600), the commit at KST 2024-05-01 12:00 (Unix
timestamp 1714532400) lies in neither candidate window — `specResolve`
rejects it — yet `isCommitWithinStudyTime` accepts it, because the second
disjunct of the overnight branch compares the commit against the end of
the window of its own day (`midnight + 86400 + (e - 86400)`), which holds
for every commit of that day. -/
theorem isCommitWithinStudyTime_overnight_accepts_out_of_window :
    isCommitWithinStudyTime 1714532400 79200 93600 = true ∧
      specResolve 1714532400 79200 93600 = ResolveResult.rejected := by
  exact ⟨by decide, by decide⟩

/-- C2: the claim states that the implemented branch-based resolution is
equivalent to the absolute-timestamp method of spec section 4.1.  It is
not: in the scenario of spec section 8 (window 11:00 to 25:00, offsets
39600 and 90000), the commit at KST 2024-05-02 02:00 (Unix timestamp
1714582800, one hour past the window end) is rejected by the spec method
but accepted by `isCommitWithinStudyTime`, and `calculateStudyDate` then
assigns it the 2024-05-02 (day 19845) session. -/
theorem windowResolution_not_equivalent_to_specResolve :
    isCommitWithinStudyTime 1714582800 39600 90000 = true ∧
      specResolve 1714582800 39600 90000 = ResolveResult.rejected ∧
      calculateStudyDate 1714582800 39600 90000 = 19845 * 86400 - 32400 := by
  exact ⟨by decide, by decide, by decide⟩

/-- C3: recording a first commit is idempotent.  If the window accepts the
commit and no record with the (study, user, date) key exists, the first
`processCommitForStudy` call records with `isFirstCommit = true`; a second
call with the identical commit returns `isFirstCommit = false`, leaves the
store unchanged, issues no external-ledger call and raises no error,
whatever the ledger responses of either call were. -/
theorem processCommit_duplicate_is_noop
    (db : CommitDB) (study : StudyCfg) (userId : Nat) (wallet : String)
    (commitTs : Int) (commitId commitMessage : String)
    (sR tR sR' tR' : LedgerResult)
    (hwin : isCommitWithinStudyTime commitTs study.study_start_time study.study_end_time = true)
    (hnew : findCommitRecord db study.id userId
      (studyDayOf commitTs study.study_start_time study.study_end_time) = none) :
    (∃ b, (processCommitForStudy db study userId wallet commitTs commitId commitMessage sR tR).recorded
        = some ⟨true, b⟩) ∧
      processCommitForStudy
          (processCommitForStudy db study userId wallet commitTs commitId commitMessage sR tR).db
          study userId wallet commitTs commitId commitMessage sR' tR'
        = ⟨(processCommitForStudy db study userId wallet commitTs commitId commitMessage sR tR).db,
            [], none, some ⟨false, false⟩⟩ := by
  simp only [studyDayOf] at hnew
  simp only [processCommitForStudy, hwin, if_pos, recordCommit, hnew]
  constructor
  · exact ⟨_, rfl⟩
  · have hfind : findCommitRecord
        (db ++ [⟨study.id, userId,
          Int.fdiv (calculateStudyDate commitTs study.study_start_time study.study_end_time + 32400) 86400,
          commitTs, commitId, commitMessage, wallet⟩])
        study.id userId
        (Int.fdiv (calculateStudyDate commitTs study.study_start_time study.study_end_time + 32400) 86400)
        = some ⟨study.id, userId,
          Int.fdiv (calculateStudyDate commitTs study.study_start_time study.study_end_time + 32400) 86400,
          commitTs, commitId, commitMessage, wallet⟩ := by
      simp only [findCommitRecord] at hnew ⊢
      rw [List.find?_append, hnew]
      simp
    simp [processCommitForStudy, hwin, if_pos, recordCommit, mkCommitRow, hfind, ledgerPhase]

/-- C3 witness: concrete instantiation with a same-day 11:00-17:00 window
and a commit at KST day 20000 noon, duplicated. -/
theorem processCommit_duplicate_is_noop_witness :
    isCommitWithinStudyTime 1728010800 39600 61200 = true ∧
    findCommitRecord [] 1 7 (studyDayOf 1728010800 39600 61200) = none ∧
    ((∃ b, (processCommitForStudy [] ⟨1, pxA, nmA, 39600, 61200⟩ 7 wA 1728010800 cidA msgA
        .ok .ok).recorded = some ⟨true, b⟩) ∧
      processCommitForStudy
          (processCommitForStudy [] ⟨1, pxA, nmA, 39600, 61200⟩ 7 wA 1728010800 cidA msgA .ok .ok).db
          ⟨1, pxA, nmA, 39600, 61200⟩ 7 wA 1728010800 cidA msgA .ok .ok
        = ⟨(processCommitForStudy [] ⟨1, pxA, nmA, 39600, 61200⟩ 7 wA 1728010800 cidA msgA
              .ok .ok).db,
            [], none, some ⟨false, false⟩⟩) :=
  ⟨by decide, by decide,
    processCommit_duplicate_is_noop [] ⟨1, pxA, nmA, 39600, 61200⟩ 7 wA 1728010800 cidA msgA
      .ok .ok .ok .ok (by decide) (by decide)⟩

/-- C4: on the insert path of `recordCommit`, the returned
`isFirstStudyCommitToday` flag is true iff no record for that study and
session date existed across all participants, and the commit handler
issues the `startTodayStudy` ledger call exactly when that flag is true,
whatever the ledger responses are. -/
theorem recordCommit_first_of_session_flag
    (db : CommitDB) (d : RecordCommitData)
    (hnew : findCommitRecord db d.studyId d.userId d.date = none) :
    ((recordCommit db d).1.isFirstStudyCommitToday = true ↔
        ∀ r ∈ db, ¬(r.study_id = d.studyId ∧ r.date = d.date)) ∧
      (recordCommit db d).1.isFirstCommit = true ∧
      (∀ (proxy wallet : String) (cts sd : Int) (sR tR : LedgerResult),
        LedgerCall.startTodayStudy proxy sd ∈
            (ledgerPhase (recordCommit db d).1 proxy wallet cts sd sR tR).1 ↔
          (recordCommit db d).1.isFirstStudyCommitToday = true) := by
  simp only [recordCommit, hnew]
  refine ⟨?_, trivial, ?_⟩
  · simp [countStudyDateRecords, List.length_eq_zero, List.filter_eq_nil_iff, not_and,
      Bool.and_eq_true, beq_iff_eq]
  · intro proxy wallet cts sd sR tR
    cases hb : countStudyDateRecords db d.studyId d.date == 0 <;>
      cases sR <;> cases tR <;>
        simp [hb, ledgerPhase, strIncludes] <;>
          (try (split <;> simp))

/-- C4 witness: a store holding a record of another participant (user 5)
for the same study and date, so the inserted record of user 7 is not first
of session and triggers no `startTodayStudy` call. -/
theorem recordCommit_first_of_session_flag_witness :
    findCommitRecord [⟨1, 5, 19000, 50, cidA, msgA, wA⟩] 1 7 19000 = none ∧
    (LedgerCall.startTodayStudy pxA 5 ∈
        (ledgerPhase (recordCommit [⟨1, 5, 19000, 50, cidA, msgA, wA⟩]
            ⟨1, 7, 19000, 99, cidA, msgA, wA⟩).1 pxA wA 99 5 .ok .ok).1 ↔
      (recordCommit [⟨1, 5, 19000, 50, cidA, msgA, wA⟩]
          ⟨1, 7, 19000, 99, cidA, msgA, wA⟩).1.isFirstStudyCommitToday = true) :=
  ⟨by decide,
    (recordCommit_first_of_session_flag [⟨1, 5, 19000, 50, cidA, msgA, wA⟩]
        ⟨1, 7, 19000, 99, cidA, msgA, wA⟩ (by decide)).2.2 pxA wA 99 5 .ok .ok⟩

/-- C5: for the overnight window 22:00 to 26:00 (offsets 79200 and 93600),
a commit at local 23:30 of day `d` resolves to the KST midnight of day `d`
and a commit at local 01:30 of day `d` resolves to the KST midnight of day
`d - 1`; the `date` column written to the store and the study-date
timestamp passed to both `startTodayStudy` and `trackCommit` reflect the
same owning date. -/
theorem calculateStudyDate_overnight_owning_date (d : Int) (idn uid : Nat)
    (p nm w cid msg : String) :
    calculateStudyDate (d * 86400 - 32400 + 84600) 79200 93600 = d * 86400 - 32400 ∧
    calculateStudyDate (d * 86400 - 32400 + 5400) 79200 93600 = (d - 1) * 86400 - 32400 ∧
    studyDayOf (d * 86400 - 32400 + 84600) 79200 93600 = d ∧
    studyDayOf (d * 86400 - 32400 + 5400) 79200 93600 = d - 1 ∧
    processCommitForStudy [] ⟨idn, p, nm, 79200, 93600⟩ uid w
        (d * 86400 - 32400 + 84600) cid msg .ok .ok =
      ⟨[⟨idn, uid, d, d * 86400 - 32400 + 84600, cid, msg, w⟩],
        [.startTodayStudy p (d * 86400 - 32400),
          .trackCommit p w (d * 86400 - 32400 + 84600) (d * 86400 - 32400)],
        none, some ⟨true, true⟩⟩ ∧
    processCommitForStudy [] ⟨idn, p, nm, 79200, 93600⟩ uid w
        (d * 86400 - 32400 + 5400) cid msg .ok .ok =
      ⟨[⟨idn, uid, d - 1, d * 86400 - 32400 + 5400, cid, msg, w⟩],
        [.startTodayStudy p ((d - 1) * 86400 - 32400),
          .trackCommit p w (d * 86400 - 32400 + 5400) ((d - 1) * 86400 - 32400)],
        none, some ⟨true, true⟩⟩ := by
  have hhourEve : Int.fdiv ((d * 86400 - 32400 + 84600 + 32400) % 86400) 3600 = 23 := by
    rw [kstTimeOfDay_add d 84600 (by norm_num) (by norm_num)]
    decide
  have hhourDawn : Int.fdiv ((d * 86400 - 32400 + 5400 + 32400) % 86400) 3600 = 1 := by
    rw [kstTimeOfDay_add d 5400 (by norm_num) (by norm_num)]
    decide
  have hcalcEve : calculateStudyDate (d * 86400 - 32400 + 84600) 79200 93600
      = d * 86400 - 32400 := by
    simp [calculateStudyDate, kstDayOf_add d 84600 (by norm_num) (by norm_num),
      hhourEve, kstMidnightOfDay]
  have hcalcDawn : calculateStudyDate (d * 86400 - 32400 + 5400) 79200 93600
      = (d - 1) * 86400 - 32400 := by
    simp [calculateStudyDate, kstDayOf_add d 5400 (by norm_num) (by norm_num),
      hhourDawn, kstMidnightOfDay]
  have hdayEve : studyDayOf (d * 86400 - 32400 + 84600) 79200 93600 = d := by
    rw [studyDayOf, hcalcEve, show d * 86400 - 32400 + 32400 = d * 86400 + 0 by ring]
    rw [Int.fdiv_eq_ediv _ (by norm_num)]
    omega
  have hdayDawn : studyDayOf (d * 86400 - 32400 + 5400) 79200 93600 = d - 1 := by
    rw [studyDayOf, hcalcDawn, show (d - 1) * 86400 - 32400 + 32400 = (d - 1) * 86400 + 0 by ring]
    rw [Int.fdiv_eq_ediv _ (by norm_num)]
    omega
  have hwinEve : isCommitWithinStudyTime (d * 86400 - 32400 + 84600) 79200 93600 = true := by
    have hm : kstMidnightOf (d * 86400 - 32400 + 84600) = d * 86400 - 32400 := by
      rw [kstMidnightOf, kstDayOf_add d 84600 (by norm_num) (by norm_num)]
    simp [isCommitWithinStudyTime, hm]
  have hwinDawn : isCommitWithinStudyTime (d * 86400 - 32400 + 5400) 79200 93600 = true := by
    have hm : kstMidnightOf (d * 86400 - 32400 + 5400) = d * 86400 - 32400 := by
      rw [kstMidnightOf, kstDayOf_add d 5400 (by norm_num) (by norm_num)]
    simp [isCommitWithinStudyTime, hm]
    omega
  refine ⟨hcalcEve, hcalcDawn, hdayEve, hdayDawn, ?_, ?_⟩
  · simp only [processCommitForStudy, hwinEve, if_pos, hcalcEve]
    have hday : Int.fdiv (d * 86400 - 32400 + 32400) 86400 = d := by
      rw [show d * 86400 - 32400 + 32400 = d * 86400 + 0 by ring, Int.fdiv_eq_ediv _ (by norm_num)]
      omega
    simp [hday, recordCommit, findCommitRecord, countStudyDateRecords, mkCommitRow, ledgerPhase]
  · simp only [processCommitForStudy, hwinDawn, if_pos, hcalcDawn]
    have hday : Int.fdiv ((d - 1) * 86400 - 32400 + 32400) 86400 = d - 1 := by
      rw [show (d - 1) * 86400 - 32400 + 32400 = (d - 1) * 86400 + 0 by ring,
        Int.fdiv_eq_ediv _ (by norm_num)]
      omega
    simp [hday, recordCommit, findCommitRecord, countStudyDateRecords, mkCommitRow, ledgerPhase]

/-- C6: a scheduler pass closes only past-due sessions, with a strict time
comparison against `windowEnd = kstMidnight d + e` (the same formula as
attribution, covering the overnight case `86400 ≤ e`): a pass at
`windowEnd - 1` leaves the session store untouched and issues no close
call, while a pass at `windowEnd + 1` selects the session, issues the
close call and — given a successful ledger response — transitions the
session row (found through its (study_id, study_date) key) to CLOSED,
with `closed_at` set to the pass time and the close transaction hash
stored, the other columns unchanged. -/
theorem handleStudyClosures_strict_deadline (d e st : Int) (idn : Nat) (p nm : String)
    (sa : Option Int) (closeOk : String → Int → Bool) (txOf : String → Int → String)
    (h0 : 0 ≤ e) (h1 : e ≤ 172798) :
    handleStudyClosures (d * 86400 - 32400 + e - 1) [⟨idn, d, ⟨idn, p, nm, st, e⟩⟩]
        [⟨idn, p, nm, st, e⟩]
        [⟨idn, d, .active, sa, none, none, d * 86400 - 32400⟩] closeOk txOf
      = ([⟨idn, d, .active, sa, none, none, d * 86400 - 32400⟩], []) ∧
    (closeOk p (d * 86400) = true →
      handleStudyClosures (d * 86400 - 32400 + e + 1) [⟨idn, d, ⟨idn, p, nm, st, e⟩⟩]
          [⟨idn, p, nm, st, e⟩]
          [⟨idn, d, .active, sa, none, none, d * 86400 - 32400⟩] closeOk txOf
        = ([⟨idn, d, .closed, sa, some (d * 86400 - 32400 + e + 1),
              some (txOf p (d * 86400)), d * 86400 - 32400⟩],
            [(p, d * 86400)])) := by
  constructor
  · have hsel : getStudiesToClose (d * 86400 - 32400 + e - 1) [⟨idn, d, ⟨idn, p, nm, st, e⟩⟩]
        = [] := by
      rw [getStudiesToClose_singleton]
      have hlt : ¬ actualEndTimeOf d e < (d * 86400 - 32400 + e - 1) + 32400 := by
        unfold actualEndTimeOf; split <;> omega
      simp [hlt]
    simp [handleStudyClosures, hsel]
  · intro hok
    have hsel : getStudiesToClose (d * 86400 - 32400 + e + 1) [⟨idn, d, ⟨idn, p, nm, st, e⟩⟩]
        = [⟨p, nm, d * 86400, e⟩] := by
      rw [getStudiesToClose_singleton]
      have hcond : (d = kstDayOf (d * 86400 - 32400 + e + 1) ∨
          d = kstDayOf (d * 86400 - 32400 + e + 1) - 1) ∧
          actualEndTimeOf d e < (d * 86400 - 32400 + e + 1) + 32400 := by
        constructor
        · unfold kstDayOf
          rw [Int.fdiv_eq_ediv _ (by norm_num)]
          omega
        · unfold actualEndTimeOf; split <;> omega
      simp [hcond]
    simp [handleStudyClosures, hsel, markStudySessionClosed, hok]

/-- C6 witness: the overnight study of KST day 20000 with offsets 79200 and
93600, a session row started at the first commit, an always-successful
ledger and a fixed transaction hash, checked one second before and one
second after the window end. -/
theorem handleStudyClosures_strict_deadline_witness :
    (0 : Int) ≤ 93600 ∧ (93600 : Int) ≤ 172798 ∧
    handleStudyClosures (20000 * 86400 - 32400 + 93600 - 1)
        [⟨1, 20000, ⟨1, pxA, nmA, 79200, 93600⟩⟩]
        [⟨1, pxA, nmA, 79200, 93600⟩]
        [⟨1, 20000, .active, some (20000 * 86400 - 32400 + 79200), none, none,
            20000 * 86400 - 32400⟩]
        (fun _ _ => true) (fun _ _ => txA)
      = ([⟨1, 20000, .active, some (20000 * 86400 - 32400 + 79200), none, none,
            20000 * 86400 - 32400⟩], []) ∧
    handleStudyClosures (20000 * 86400 - 32400 + 93600 + 1)
        [⟨1, 20000, ⟨1, pxA, nmA, 79200, 93600⟩⟩]
        [⟨1, pxA, nmA, 79200, 93600⟩]
        [⟨1, 20000, .active, some (20000 * 86400 - 32400 + 79200), none, none,
            20000 * 86400 - 32400⟩]
        (fun _ _ => true) (fun _ _ => txA)
      = ([⟨1, 20000, .closed, some (20000 * 86400 - 32400 + 79200),
            some (20000 * 86400 - 32400 + 93600 + 1), some txA, 20000 * 86400 - 32400⟩],
          [(pxA, 20000 * 86400)]) :=
  ⟨by decide, by decide,
    (handleStudyClosures_strict_deadline 20000 93600 79200 1 pxA nmA
      (some (20000 * 86400 - 32400 + 79200)) (fun _ _ => true) (fun _ _ => txA)
      (by decide) (by decide)).1,
    (handleStudyClosures_strict_deadline 20000 93600 79200 1 pxA nmA
      (some (20000 * 86400 - 32400 + 79200)) (fun _ _ => true) (fun _ _ => txA)
      (by decide) (by decide)).2 rfl⟩

/-- C7 amended: a past-due unclosed session is re-scanned only while its
calendar date is the current or previous KST day of the pass; a pass at
time `now` selects the session iff `now` is strictly past the window end
and the KST day of `now` is the session date or the following day — in
particular, passes later than one KST day after the session date never
select it again. -/
theorem getStudiesToClose_two_day_scan_window (now d e st : Int) (idn : Nat) (p nm : String)
    (h0 : 0 ≤ e) (h1 : e ≤ 172798) :
    getStudiesToClose now [⟨idn, d, ⟨idn, p, nm, st, e⟩⟩] =
      if d * 86400 - 32400 + e < now ∧ (kstDayOf now = d ∨ kstDayOf now = d + 1) then
        [⟨p, nm, d * 86400, e⟩]
      else [] := by
  rw [getStudiesToClose_singleton]
  have hiff : ((d = kstDayOf now ∨ d = kstDayOf now - 1) ∧
      actualEndTimeOf d e < now + 32400) ↔
      (d * 86400 - 32400 + e < now ∧ (kstDayOf now = d ∨ kstDayOf now = d + 1)) := by
    unfold actualEndTimeOf; split <;> constructor <;> rintro ⟨ha, hb⟩ <;>
      exact ⟨by omega, by omega⟩
  simp only [hiff]

/-- C7 amended witness: one second past the window end of the day-20000
session, the pass still selects it. -/
theorem getStudiesToClose_two_day_scan_window_witness :
    (0 : Int) ≤ 3600 ∧ (3600 : Int) ≤ 172798 ∧
    getStudiesToClose (20000 * 86400 - 32400 + 3600 + 1) [⟨1, 20000, ⟨1, pxA, nmA, 0, 3600⟩⟩] =
      if 20000 * 86400 - 32400 + 3600 < 20000 * 86400 - 32400 + 3600 + 1 ∧
          (kstDayOf (20000 * 86400 - 32400 + 3600 + 1) = 20000 ∨
            kstDayOf (20000 * 86400 - 32400 + 3600 + 1) = 20000 + 1) then
        [⟨pxA, nmA, 20000 * 86400, 3600⟩]
      else [] :=
  ⟨by decide, by decide,
    getStudiesToClose_two_day_scan_window (20000 * 86400 - 32400 + 3600 + 1) 20000 3600 0 1
      pxA nmA (by decide) (by decide)⟩

/-- C7 counterexample: the claim states that a past-due, never-closed
session is re-scanned by every later scheduler pass indefinitely.  False:
the session of KST day 20000 for a study ending at offset 3600 has window
end `20000 * 86400 - 32400 + 3600 = 1727971200`; a pass three days later
(at time 1728230400) is strictly past due, yet `getStudiesToClose` returns
the empty list, because the scan only queries commit records dated today
or yesterday (KST). -/
theorem getStudiesToClose_drops_old_past_due_sessions :
    (1727971200 : Int) < 1728230400 ∧
      getStudiesToClose 1728230400 [⟨1, 20000, ⟨1, pxA, nmA, 0, 3600⟩⟩] = [] := by
  exact ⟨by decide, by decide⟩

/-- C8: an "already started" response from the session-start ledger call is
treated as success — the whole per-study processing step behaves exactly
as if `startTodayStudy` had succeeded, `trackCommit` included — while any
other session-start failure stops the step before `trackCommit` and
re-raises that error to the caller. -/
theorem processCommit_already_started_is_success :
    (∀ (db : CommitDB) (study : StudyCfg) (userId : Nat) (wallet : String)
        (commitTs : Int) (commitId commitMessage m : String) (tR : LedgerResult),
      strIncludes m alreadyExistsMsg = true →
        processCommitForStudy db study userId wallet commitTs commitId commitMessage
            (.err m) tR =
          processCommitForStudy db study userId wallet commitTs commitId commitMessage .ok tR) ∧
      (∀ (proxy wallet : String) (commitTs studyDate : Int) (m : String) (tR : LedgerResult),
        strIncludes m alreadyExistsMsg = false →
          ledgerPhase ⟨true, true⟩ proxy wallet commitTs studyDate (.err m) tR =
            ([.startTodayStudy proxy studyDate], some m)) := by
  constructor
  · intro db study userId wallet commitTs commitId commitMessage m tR h
    unfold processCommitForStudy
    split
    · simp only [ledgerPhase_swallow_already_started _ _ _ _ _ _ _ h]
    · rfl
  · intro proxy wallet commitTs studyDate m tR h
    simp [ledgerPhase, h]

/-- C8 witness: the exact collision message makes the step equal to the
success path, and a different failure message is re-raised after the lone
`startTodayStudy` call. -/
theorem processCommit_already_started_is_success_witness :
    strIncludes alreadyExistsMsg alreadyExistsMsg = true ∧
    strIncludes errBoom alreadyExistsMsg = false ∧
    processCommitForStudy [] ⟨1, pxA, nmA, 39600, 61200⟩ 7 wA 1728010800 cidA msgA
        (.err alreadyExistsMsg) .ok
      = processCommitForStudy [] ⟨1, pxA, nmA, 39600, 61200⟩ 7 wA 1728010800 cidA msgA .ok .ok ∧
    ledgerPhase ⟨true, true⟩ pxA wA 11 22 (.err errBoom) .ok
      = ([.startTodayStudy pxA 22], some errBoom) :=
  ⟨by decide, by decide,
    processCommit_already_started_is_success.1 [] ⟨1, pxA, nmA, 39600, 61200⟩ 7 wA 1728010800
      cidA msgA alreadyExistsMsg .ok (by decide),
    processCommit_already_started_is_success.2 pxA wA 11 22 errBoom .ok (by decide)⟩

/-- C9: when the local attendance record was created and a subsequent
external-ledger call fails — a session-start error without the idempotent
collision message (issued when the record was first of the session), or a
record-attendance error — the step re-raises an error to the caller, and
the store still contains exactly the record created before the ledger
calls (no rollback). -/
theorem processCommit_no_rollback_on_ledger_failure
    (db : CommitDB) (study : StudyCfg) (userId : Nat) (wallet : String)
    (commitTs : Int) (commitId commitMessage : String) (sR tR : LedgerResult)
    (hwin : isCommitWithinStudyTime commitTs study.study_start_time study.study_end_time = true)
    (hnew : findCommitRecord db study.id userId
      (studyDayOf commitTs study.study_start_time study.study_end_time) = none)
    (hfail :
      (countStudyDateRecords db study.id
          (studyDayOf commitTs study.study_start_time study.study_end_time) = 0 ∧
        ∃ m, sR = .err m ∧ strIncludes m alreadyExistsMsg = false) ∨
      (∃ m, tR = .err m)) :
    (processCommitForStudy db study userId wallet commitTs commitId commitMessage sR tR).thrown.isSome
        = true ∧
      (processCommitForStudy db study userId wallet commitTs commitId commitMessage sR tR).db
        = db ++ [⟨study.id, userId,
            studyDayOf commitTs study.study_start_time study.study_end_time,
            commitTs, commitId, commitMessage, wallet⟩] := by
  simp only [studyDayOf] at hnew hfail ⊢
  constructor
  · rcases hfail with ⟨hcnt, m, rfl, hincl⟩ | ⟨m, rfl⟩
    · simp [processCommitForStudy, hwin, recordCommit, hnew, ledgerPhase, hcnt, hincl]
    · cases sR with
      | ok =>
        by_cases hc : countStudyDateRecords db study.id
            (Int.fdiv (calculateStudyDate commitTs study.study_start_time
              study.study_end_time + 32400) 86400) = 0 <;>
          simp [processCommitForStudy, hwin, recordCommit, hnew, ledgerPhase, hc]
      | err m2 =>
        by_cases hc : countStudyDateRecords db study.id
            (Int.fdiv (calculateStudyDate commitTs study.study_start_time
              study.study_end_time + 32400) 86400) = 0 <;>
          by_cases hincl : strIncludes m2 alreadyExistsMsg = true <;>
            simp [processCommitForStudy, hwin, recordCommit, hnew, ledgerPhase, hc, hincl]
  · simp [processCommitForStudy, hwin, recordCommit, hnew, mkCommitRow]

/-- C9 witness: a fresh record whose session-start call fails with a
non-idempotent error; the error surfaces and the inserted record
remains. -/
theorem processCommit_no_rollback_on_ledger_failure_witness :
    isCommitWithinStudyTime 1728010800 39600 61200 = true ∧
    findCommitRecord [] 1 7 (studyDayOf 1728010800 39600 61200) = none ∧
    ((processCommitForStudy [] ⟨1, pxA, nmA, 39600, 61200⟩ 7 wA 1728010800 cidA msgA
        (.err errBoom) .ok).thrown.isSome = true ∧
      (processCommitForStudy [] ⟨1, pxA, nmA, 39600, 61200⟩ 7 wA 1728010800 cidA msgA
          (.err errBoom) .ok).db
        = [] ++ [⟨1, 7, studyDayOf 1728010800 39600 61200, 1728010800, cidA, msgA, wA⟩]) :=
  ⟨by decide, by decide,
    processCommit_no_rollback_on_ledger_failure [] ⟨1, pxA, nmA, 39600, 61200⟩ 7 wA 1728010800
      cidA msgA (.err errBoom) .ok (by decide) (by decide)
      (Or.inl ⟨by decide, errBoom, rfl, by decide⟩)⟩

/-- C10: `verifyWebhookSignature` is total — the try/catch turns the
length-mismatch throw of `timingSafeEqual` and the missing-secret case
into `false` — and it returns `true` exactly when a secret is configured
and the supplied signature equals the string `sha256=` followed by the hex
HMAC-SHA256 of the payload under that secret. -/
theorem verifyWebhookSignature_true_iff_exact_match
    (hmacHex : String → String → String) (secretCfg : Option String)
    (payload signature : String) :
    verifyWebhookSignature hmacHex secretCfg payload signature = true ↔
      ∃ secret, secretCfg = some secret ∧
        signature = "sha256=" ++ hmacHex secret payload := by
  cases secretCfg with
  | none => simp [verifyWebhookSignature]
  | some secret =>
    unfold verifyWebhookSignature timingSafeEqualStr expectedSignature
    constructor
    · intro h
      by_cases hlen :
          signature.utf8ByteSize = ("sha256=" ++ hmacHex secret payload).utf8ByteSize
      · simp only [hlen, if_pos rfl] at h
        exact ⟨secret, rfl, by simpa [beq_iff_eq] using h⟩
      · simp [hlen] at h
    · rintro ⟨s2, hs, hsig⟩
      obtain rfl : secret = s2 := by injection hs
      rw [hsig]
      simp

end BayStudy
